import Mathlib

/-!
Verification of the instanced quad rendering subsystem of the
`bevy_meshing_issues` repository (`src/main.rs`), as a shallow embedding in
Lean.  The repository renders greedily-meshed voxel quads as GPU-instanced
geometry inside Bevy's render graph.  We embed the quad encoding (`quads`),
the buffer preparation system (`prepare_instance_buffers`), the draw
queueing system (`queue_custom`), the pipeline specialization
(`CustomPipeline::specialize`), and the draw executor
(`DrawMeshInstanced::render`), and prove the spec's properties about them.
-/

namespace VoxelInstancing

/-- Modulus of `u32` arithmetic. -/
def U32 : Nat := 2 ^ 32

/-- Modulus of `u64` arithmetic. -/
def U64 : Nat := 2 ^ 64

/-- `InstanceData` from `src/main.rs`: two `u32` words `low` and `high`
(`#[repr(C)] struct InstanceData { low: u32, high: u32 }`). -/
structure InstanceData where
  low : Nat
  high : Nat
  deriving DecidableEq, Repr

/-- The per-quad `u64` encoding built inside `quads` (`src/main.rs` 90–93):
`let face = (face as u64) << 61; ... face | quad`.  Shifts and values are
`u64`, so they are reduced mod `2^64`. -/
def encodeU64 (face rawQuad : Nat) : Nat :=
  (((face % U64) <<< 61) % U64) ||| (rawQuad % U64)

/-- The `u64 -> [u32; 2]` flattening from `quads` (`src/main.rs` 95–98):
`InstanceData { low: quad as u32, high: (quad >> 32) as u32 }`. -/
def splitWords (quad : Nat) : InstanceData :=
  { low := quad % U32, high := (quad >>> 32) % U32 }

/-- Full encoding of one raw quad with its face direction index, as performed
by `quads` on each element of the mesher's per-face buckets. -/
def encode (rawQuad face : Nat) : InstanceData :=
  splitWords (encodeU64 face rawQuad)

/-- Modelled from the spec: the decode path runs in the GPU shader
(`shaders/voxel_rendering_instancing_poc.wgsl`), which is not part of `src/`.
Per the spec, decoding first reconstructs `encoded = (u64)high << 32 | low`. -/
def mergeWords (d : InstanceData) : Nat :=
  ((d.high % U32) <<< 32) ||| (d.low % U32)

/-- Modelled from the spec: after merging the two words, the decoder extracts
the low 61 bits (the raw quad payload) and the top 3 bits (the face index). -/
def decode (d : InstanceData) : Nat × Nat :=
  (mergeWords d &&& (2 ^ 61 - 1), mergeWords d >>> 61)

/-- The top 3 bits of a 32-bit word, used to state the spec's invariant on the
`high` word. -/
def top3of32 (w : Nat) : Nat := w >>> 29

theorem encodeU64_eq (face rawQuad : Nat) (hf : face ≤ 5) (hq : rawQuad < 2 ^ 61) :
    encodeU64 face rawQuad = 2 ^ 61 * face + rawQuad := by
  unfold encodeU64 U64
  rw [Nat.mod_eq_of_lt (show face < 2 ^ 64 by omega),
    Nat.mod_eq_of_lt (show rawQuad < 2 ^ 64 by omega), Nat.shiftLeft_eq,
    Nat.mod_eq_of_lt (show face * 2 ^ 61 < 2 ^ 64 by omega),
    Nat.mul_comm face (2 ^ 61)]
  exact (Nat.mul_add_lt_is_or hq face).symm

theorem mergeWords_splitWords (e : Nat) (he : e < 2 ^ 64) :
    mergeWords (splitWords e) = e := by
  show (((e >>> 32) % U32 % U32) <<< 32) ||| (e % U32 % U32) = e
  unfold U32
  rw [Nat.shiftRight_eq_div_pow, Nat.shiftLeft_eq,
    Nat.mul_comm _ (2 ^ 32),
    ← Nat.mul_add_lt_is_or (show e % 2 ^ 32 % 2 ^ 32 < 2 ^ 32 by omega)]
  omega

/-- C1: for every `raw_quad < 2^61` and `face ∈ {0..5}`, encoding as
`(face << 61) | raw_quad`, splitting into the `low`/`high` `u32` words,
merging them back as `(u64)high << 32 | low` and extracting the low 61 bits
and the top 3 bits recovers exactly `(raw_quad, face)`: the
encode/split/merge/decode path is a round trip. -/
theorem quad_round_trip (rawQuad face : Nat) (hq : rawQuad < 2 ^ 61) (hf : face ≤ 5) :
    decode (encode rawQuad face) = (rawQuad, face) := by
  have he := encodeU64_eq face rawQuad hf hq
  have heLt : 2 ^ 61 * face + rawQuad < 2 ^ 64 := by omega
  unfold encode decode
  rw [he, mergeWords_splitWords _ heLt, Nat.and_pow_two_sub_one_eq_mod,
    Nat.shiftRight_eq_div_pow]
  simp only [Prod.mk.injEq]
  constructor <;> omega

/-- Witness for `quad_round_trip` at a concrete input. -/
theorem quad_round_trip_witness :
    1234567890123 < 2 ^ 61 ∧ 4 ≤ 5 ∧ decode (encode 1234567890123 4) = (1234567890123, 4) :=
  ⟨by norm_num, by norm_num, quad_round_trip 1234567890123 4 (by norm_num) (by norm_num)⟩

/-- C2: for every face direction index in `{0..5}` and every raw quad occupying
only its low 61 bits, the 3 most-significant bits of the `high` word produced
by the encoding equal the face direction index, independent of the raw quad. -/
theorem high_top3_eq_face (rawQuad face : Nat) (hq : rawQuad < 2 ^ 61) (hf : face ≤ 5) :
    top3of32 (encode rawQuad face).high = face := by
  have he := encodeU64_eq face rawQuad hf hq
  show ((encodeU64 face rawQuad >>> 32) % U32) >>> 29 = face
  unfold U32
  rw [he, Nat.shiftRight_eq_div_pow, Nat.shiftRight_eq_div_pow]
  omega

/-- Witness for `high_top3_eq_face` at a concrete input. -/
theorem high_top3_eq_face_witness :
    987654321 < 2 ^ 61 ∧ 5 ≤ 5 ∧ top3of32 (encode 987654321 5).high = 5 :=
  ⟨by norm_num, by norm_num, high_top3_eq_face 987654321 5 (by norm_num) (by norm_num)⟩

/-! ## Render-side data model

Identifiers that are opaque handles in the source (entities, mesh asset ids,
buffer ids, shader handles, bind group layouts, pipeline ids, pipeline keys,
vertex layout ids, index formats) are modelled as `Nat`. -/

/-- The step mode of a vertex buffer layout (`VertexStepMode`). -/
inductive VertexStepMode where
  | vertex
  | instanceStep
  deriving DecidableEq, Repr

/-- A vertex attribute format (`VertexFormat`); only `Uint32x2` is used by the
code, other formats are collapsed into `other`. -/
inductive VertexFormat where
  | uint32x2
  | other (id : Nat)
  deriving DecidableEq, Repr

/-- One `VertexAttribute` of a vertex buffer layout. -/
structure VertexAttribute where
  format : VertexFormat
  offset : Nat
  shader_location : Nat
  deriving DecidableEq, Repr

/-- One `VertexBufferLayout` of a pipeline descriptor. -/
structure VertexBufferLayout where
  array_stride : Nat
  step_mode : VertexStepMode
  attributes : List VertexAttribute
  deriving DecidableEq, Repr

/-- The vertex stage of a `RenderPipelineDescriptor`: shader handle, shader
defs and vertex buffer layouts. -/
structure VertexState where
  shader : Nat
  shader_defs : List String
  buffers : List VertexBufferLayout
  deriving DecidableEq, Repr

/-- The fragment stage of a `RenderPipelineDescriptor`. -/
structure FragmentState where
  shader : Nat
  shader_defs : List String
  deriving DecidableEq, Repr

/-- The parts of `RenderPipelineDescriptor` that `CustomPipeline::specialize`
reads or writes: the vertex stage, the optional fragment stage, and the list
of bind-group layout slots. -/
structure RenderPipelineDescriptor where
  vertex : VertexState
  fragment : Option FragmentState
  layout : List Nat
  deriving DecidableEq, Repr

/-- `size_of::<InstanceData>()`: two `u32` fields in a `#[repr(C)]` struct,
4 + 4 bytes. -/
def instanceDataSize : Nat := 4 + 4

/-- The vertex buffer layout pushed by `CustomPipeline::specialize`
(`src/main.rs` 398–406). -/
def instanceVertexBufferLayout : VertexBufferLayout :=
  { array_stride := instanceDataSize
    step_mode := .instanceStep
    attributes := [{ format := .uint32x2, offset := 0, shader_location := 3 }] }

/-- The `CustomPipeline` resource (`src/main.rs` 362–367): the custom shader
handle, the material bind-group layout, and the base `MeshPipeline`.  The base
pipeline is external to this repository, so its `specialize` is modelled as an
abstract function from (key, vertex layout id) to a fallible descriptor. -/
structure CustomPipeline where
  shader : Nat
  material_layout : Nat
  mesh_pipeline : Nat → Nat → Except Unit RenderPipelineDescriptor

/-- Outcome of a computation that may abort with a Rust panic (`unwrap`,
`assert_eq`) instead of returning. -/
inductive PanicOr (α : Type) where
  | panicked
  | ok (a : α)
  deriving DecidableEq, Repr

/-- `CustomPipeline::specialize` (`src/main.rs` 388–417): delegate to the base
mesh pipeline (the `?` propagates its error), push the shader defs, replace
the shaders, push the per-instance vertex buffer layout, unwrap the fragment
stage (panic if absent), assert the inherited layout has exactly 2 bind-group
slots (panic otherwise), and append the material layout. -/
def specialize (self : CustomPipeline) (key layoutId : Nat) :
    PanicOr (Except Unit RenderPipelineDescriptor) :=
  match self.mesh_pipeline key layoutId with
  | .error e => .ok (.error e)
  | .ok descriptor =>
    let vertex : VertexState :=
      { shader := self.shader
        shader_defs := descriptor.vertex.shader_defs ++ ["BINDLESS", "VERTEX_COLORS"]
        buffers := descriptor.vertex.buffers ++ [instanceVertexBufferLayout] }
    match descriptor.fragment with
    | none => .panicked
    | some fragment =>
      let fragment : FragmentState :=
        { shader := self.shader
          shader_defs := fragment.shader_defs ++ ["BINDLESS", "VERTEX_COLORS"] }
      if descriptor.layout.length = 2 then
        .ok (.ok { vertex := vertex
                   fragment := some fragment
                   layout := descriptor.layout ++ [self.material_layout] })
      else
        .panicked

/-- The fields of `RenderMeshQueueData` that the code reads: the mesh asset id
and the mesh-space translation (an opaque value fed to the rangefinder). -/
structure MeshQueueData where
  mesh_asset_id : Nat
  translation : Nat
  deriving DecidableEq, Repr

/-- `RenderMeshBufferInfo`: either indexed geometry with an index format and
an index count, or non-indexed geometry. -/
inductive RenderMeshBufferInfo where
  | indexed (index_format : Nat) (count : Nat)
  | nonIndexed
  deriving DecidableEq, Repr

/-- The fields of a GPU `RenderMesh` that the code reads: primitive topology
(as pipeline key bits), vertex buffer layout id, and buffer info. -/
structure RenderMesh where
  primitive_topology : Nat
  layout : Nat
  buffer_info : RenderMeshBufferInfo
  deriving DecidableEq, Repr

/-- An allocator buffer slice (`MeshBufferSlice`): the backing buffer and the
element range assigned to the mesh. -/
structure BufferSlice where
  buffer : Nat
  range_start : Nat
  range_end : Nat
  deriving DecidableEq, Repr

/-- The render-world state looked up by `queue_custom` and
`DrawMeshInstanced::render`: `RenderMeshInstances` (keyed by main entity),
`RenderAssets<RenderMesh>` (keyed by mesh asset id), the specialized-pipeline
cache front end, the view rangefinder, and the `MeshAllocator` slices. -/
structure RenderWorld where
  render_mesh_instances : Nat → Option MeshQueueData
  meshes : Nat → Option RenderMesh
  specialize_pipeline : Nat → Nat → Except Unit Nat
  rangefinder : Nat → Nat
  mesh_vertex_slice : Nat → Option BufferSlice
  mesh_index_slice : Nat → Option BufferSlice

/-- A render-world entity carrying `InstanceMaterialData`.  The `visible` flag
models the entity's per-view visibility state; the query in `queue_custom`
filters only on `With<InstanceMaterialData>` and never reads visibility. -/
structure QueueEntity where
  entity : Nat
  main_entity : Nat
  visible : Bool
  deriving DecidableEq, Repr

/-- One `Transparent3d` phase entry as built by `queue_custom`
(`src/main.rs` 324–332). -/
structure PhaseEntry where
  entity : Nat × Nat
  pipeline : Nat
  draw_function : Nat
  distance : Nat
  batch_range : Nat × Nat
  extra_index : Option Nat
  indexed : Bool
  deriving DecidableEq, Repr

/-- Outcome of the per-entity body of `queue_custom`: entity skipped
(`continue`), a panic (`unwrap` on a failed specialization), or a phase entry
added to the transparent phase. -/
inductive QueueOutcome where
  | skip
  | panic
  | add (entry : PhaseEntry)
  deriving DecidableEq, Repr

/-- The body of the per-entity loop of `queue_custom` (`src/main.rs` 310–333):
resolve the mesh instance (`continue` if absent), resolve the mesh asset
(`continue` if absent), build the pipeline key from the view key and the
mesh's primitive topology, specialize (`unwrap`: panic on error), and add a
phase entry with `batch_range: 0..1`, `extra_index: None`, `indexed: true`. -/
def queueEntity (w : RenderWorld) (view_key draw_custom : Nat) (e : QueueEntity) :
    QueueOutcome :=
  match w.render_mesh_instances e.main_entity with
  | none => .skip
  | some mesh_instance =>
    match w.meshes mesh_instance.mesh_asset_id with
    | none => .skip
    | some mesh =>
      let key := view_key ||| mesh.primitive_topology
      match w.specialize_pipeline key mesh.layout with
      | .error _ => .panic
      | .ok pipeline =>
        .add { entity := (e.entity, e.main_entity)
               pipeline := pipeline
               draw_function := draw_custom
               distance := w.rangefinder mesh_instance.translation
               batch_range := (0, 1)
               extra_index := none
               indexed := true }

/-- The `InstanceBuffer` component (`src/main.rs` 337–341): the created
buffer and the recorded element count.  The GPU buffer is modelled by the
instance data it was created from (`bytemuck::cast_slice` reinterprets; byte
layout is not modelled). -/
structure InstanceBuffer where
  buffer : List InstanceData
  length : Nat
  deriving DecidableEq, Repr

/-- The per-entity body of `prepare_instance_buffers` (`src/main.rs`
349–359): create a buffer holding the instance data and record
`length: instance_data.len()`. -/
def prepare_instance_buffer (instance_data : List InstanceData) : InstanceBuffer :=
  { buffer := instance_data, length := instance_data.length }

/-- A buffer bound on the pass: either a mesh buffer owned by the allocator
(by id) or an entity's instance-data buffer (by contents). -/
inductive BoundBuffer where
  | meshBuffer (id : Nat)
  | instanceDataBuffer (contents : List InstanceData)
  deriving DecidableEq, Repr

/-- One command recorded on the `TrackedRenderPass` by the draw executor. -/
inductive PassCommand where
  | setVertexBuffer (slot : Nat) (buffer : BoundBuffer)
  | setIndexBuffer (buffer : Nat) (offset : Nat) (index_format : Nat)
  | drawIndexed (indices_start indices_end : Nat) (base_vertex : Int)
      (instances_start instances_end : Nat)
  | draw (vertices_start vertices_end : Nat) (instances_start instances_end : Nat)
  deriving DecidableEq, Repr

/-- `RenderCommandResult` as used by `DrawMeshInstanced::render`: `Success` or
`Skip`. -/
inductive RenderCommandResult where
  | success
  | skip
  deriving DecidableEq, Repr

/-- Reinterpretation of an unsigned 32-bit value as `i32` (`as i32`). -/
def i32OfU32 (n : Nat) : Int :=
  if n % U32 < 2 ^ 31 then ((n % U32 : Nat) : Int) else ((n % U32 : Nat) : Int) - (U32 : Int)

/-- Whether a pass command is a draw call (indexed or not). -/
def isDraw : PassCommand → Bool
  | .drawIndexed _ _ _ _ _ => true
  | .draw _ _ _ _ => true
  | _ => false

/-- `DrawMeshInstanced::render` (`src/main.rs` 440–494): each resolution step
returns `Skip` when its lookup fails; on success the vertex buffers are bound
and one draw call is issued, indexed or not according to the mesh's buffer
info.  The result pairs the `RenderCommandResult` with the sequence of
commands recorded on the pass. -/
def renderMeshInstanced (w : RenderWorld) (main_entity : Nat)
    (instance_buffer : Option InstanceBuffer) :
    RenderCommandResult × List PassCommand :=
  match w.render_mesh_instances main_entity with
  | none => (.skip, [])
  | some mesh_instance =>
    match w.meshes mesh_instance.mesh_asset_id with
    | none => (.skip, [])
    | some gpu_mesh =>
      match instance_buffer with
      | none => (.skip, [])
      | some instance_buffer =>
        match w.mesh_vertex_slice mesh_instance.mesh_asset_id with
        | none => (.skip, [])
        | some vertex_buffer_slice =>
          let setup := [PassCommand.setVertexBuffer 0 (.meshBuffer vertex_buffer_slice.buffer),
                        PassCommand.setVertexBuffer 1 (.instanceDataBuffer instance_buffer.buffer)]
          match gpu_mesh.buffer_info with
          | .indexed index_format count =>
            match w.mesh_index_slice mesh_instance.mesh_asset_id with
            | none => (.skip, setup)
            | some index_buffer_slice =>
              (.success,
               setup ++
                 [PassCommand.setIndexBuffer index_buffer_slice.buffer 0 index_format,
                  PassCommand.drawIndexed index_buffer_slice.range_start
                    ((index_buffer_slice.range_start + count) % U32)
                    (i32OfU32 vertex_buffer_slice.range_start)
                    0 (instance_buffer.length % U32)])
          | .nonIndexed =>
            (.success,
             setup ++
               [PassCommand.draw vertex_buffer_slice.range_start
                  vertex_buffer_slice.range_end
                  0 (instance_buffer.length % U32)])

/-- Projection of a specialization outcome to the returned descriptor's
bind-group layout slots. -/
def resultLayout : PanicOr (Except Unit RenderPipelineDescriptor) → Option (List Nat)
  | .ok (.ok d) => some d.layout
  | _ => none

/-! ## Pipeline specialization theorems -/

/-- C6: for every key and vertex layout accepted by the base mesh pipeline
(returning a descriptor with a fragment stage and 2 bind-group slots), the
specialized descriptor has exactly one vertex buffer description appended
after the base pipeline's buffers — per-instance step mode, stride 8 bytes,
one attribute of format `Uint32x2` at offset 0, shader location 3 — and both
the vertex and fragment stages have their shader replaced by the custom
shader with the two shader defs `BINDLESS` and `VERTEX_COLORS` added. -/
theorem specialize_descriptor_shape (p : CustomPipeline) (key layoutId : Nat)
    (d0 : RenderPipelineDescriptor) (f0 : FragmentState)
    (hbase : p.mesh_pipeline key layoutId = .ok d0)
    (hfrag : d0.fragment = some f0)
    (hlay : d0.layout.length = 2) :
    specialize p key layoutId = .ok (.ok
      { vertex := { shader := p.shader
                    shader_defs := d0.vertex.shader_defs ++ ["BINDLESS", "VERTEX_COLORS"]
                    buffers := d0.vertex.buffers ++ [instanceVertexBufferLayout] }
        fragment := some { shader := p.shader
                           shader_defs := f0.shader_defs ++ ["BINDLESS", "VERTEX_COLORS"] }
        layout := d0.layout ++ [p.material_layout] })
    ∧ instanceVertexBufferLayout.step_mode = .instanceStep
    ∧ instanceVertexBufferLayout.array_stride = 8
    ∧ instanceVertexBufferLayout.attributes =
        [{ format := .uint32x2, offset := 0, shader_location := 3 }] := by
  refine ⟨?_, rfl, rfl, rfl⟩
  unfold specialize
  rw [hbase]
  dsimp only
  rw [hfrag]
  dsimp only
  rw [if_pos hlay]

/-- Base descriptor used to witness the specialization theorems. -/
def c6Base : RenderPipelineDescriptor :=
  { vertex := { shader := 0
                shader_defs := ["MESH"]
                buffers := [{ array_stride := 32, step_mode := .vertex, attributes := [] }] }
    fragment := some { shader := 0, shader_defs := ["MESH"] }
    layout := [100, 101] }

/-- The fragment stage of `c6Base`. -/
def c6Frag : FragmentState := { shader := 0, shader_defs := ["MESH"] }

/-- A concrete `CustomPipeline` whose base mesh pipeline always returns
`c6Base`. -/
def c6Pipeline : CustomPipeline :=
  { shader := 9, material_layout := 102, mesh_pipeline := fun _ _ => .ok c6Base }

/-- Witness for `specialize_descriptor_shape` at a concrete pipeline. -/
theorem specialize_descriptor_shape_witness :
    specialize c6Pipeline 0 0 = .ok (.ok
      { vertex := { shader := c6Pipeline.shader
                    shader_defs := c6Base.vertex.shader_defs ++ ["BINDLESS", "VERTEX_COLORS"]
                    buffers := c6Base.vertex.buffers ++ [instanceVertexBufferLayout] }
        fragment := some { shader := c6Pipeline.shader
                           shader_defs := c6Frag.shader_defs ++ ["BINDLESS", "VERTEX_COLORS"] }
        layout := c6Base.layout ++ [c6Pipeline.material_layout] })
    ∧ instanceVertexBufferLayout.step_mode = .instanceStep
    ∧ instanceVertexBufferLayout.array_stride = 8
    ∧ instanceVertexBufferLayout.attributes =
        [{ format := .uint32x2, offset := 0, shader_location := 3 }] :=
  specialize_descriptor_shape c6Pipeline 0 0 c6Base c6Frag rfl rfl rfl

/-- C7: for every key and vertex layout accepted by the base mesh pipeline
(returning a descriptor with a fragment stage), if the inherited descriptor
has exactly 2 bind-group layout slots then specialization returns a
descriptor with exactly 3 slots, slot 2 carrying the material bind-group
layout; if the inherited slot count is not 2, specialization panics (the
`assert_eq`) instead of returning a descriptor. -/
theorem specialize_layout_contract (p : CustomPipeline) (key layoutId : Nat)
    (d0 : RenderPipelineDescriptor) (f0 : FragmentState)
    (hbase : p.mesh_pipeline key layoutId = .ok d0)
    (hfrag : d0.fragment = some f0) :
    (d0.layout.length = 2 →
      resultLayout (specialize p key layoutId) = some (d0.layout ++ [p.material_layout])
      ∧ (d0.layout ++ [p.material_layout]).length = 3
      ∧ (d0.layout ++ [p.material_layout])[2]? = some p.material_layout)
    ∧ (d0.layout.length ≠ 2 → specialize p key layoutId = .panicked) := by
  constructor
  · intro h2
    refine ⟨?_, by simp [h2], ?_⟩
    · unfold specialize
      rw [hbase]
      dsimp only
      rw [hfrag]
      dsimp only
      rw [if_pos h2]
      rfl
    · rw [← h2]
      exact List.getElem?_concat_length d0.layout p.material_layout
  · intro h2
    unfold specialize
    rw [hbase]
    dsimp only
    rw [hfrag]
    dsimp only
    rw [if_neg h2]

/-- Witness for `specialize_layout_contract` at a concrete pipeline. -/
theorem specialize_layout_contract_witness :
    resultLayout (specialize c6Pipeline 0 0) = some (c6Base.layout ++ [c6Pipeline.material_layout])
    ∧ (c6Base.layout ++ [c6Pipeline.material_layout]).length = 3
    ∧ (c6Base.layout ++ [c6Pipeline.material_layout])[2]? = some c6Pipeline.material_layout :=
  (specialize_layout_contract c6Pipeline 0 0 c6Base c6Frag rfl rfl).1 rfl

/-! ## Concrete render worlds used as witnesses and counterexamples -/

/-- A world in which no lookup succeeds. -/
def emptyWorld : RenderWorld :=
  { render_mesh_instances := fun _ => none
    meshes := fun _ => none
    specialize_pipeline := fun _ _ => .error ()
    rangefinder := fun t => t
    mesh_vertex_slice := fun _ => none
    mesh_index_slice := fun _ => none }

/-- A world where entity 7's mesh data resolves but pipeline specialization
always fails. -/
def c4World : RenderWorld :=
  { render_mesh_instances := fun m =>
      if m = 7 then some { mesh_asset_id := 1, translation := 0 } else none
    meshes := fun i =>
      if i = 1 then some { primitive_topology := 0, layout := 0, buffer_info := .nonIndexed }
      else none
    specialize_pipeline := fun _ _ => .error ()
    rangefinder := fun t => t
    mesh_vertex_slice := fun _ => none
    mesh_index_slice := fun _ => none }

/-- A world where entity 7 resolves to a non-indexed mesh with a vertex slice,
and pipeline specialization succeeds with pipeline id 42. -/
def nonIndexedWorld : RenderWorld :=
  { render_mesh_instances := fun m =>
      if m = 7 then some { mesh_asset_id := 1, translation := 11 } else none
    meshes := fun i =>
      if i = 1 then some { primitive_topology := 0, layout := 0, buffer_info := .nonIndexed }
      else none
    specialize_pipeline := fun _ _ => .ok 42
    rangefinder := fun t => t
    mesh_vertex_slice := fun i =>
      if i = 1 then some { buffer := 2, range_start := 0, range_end := 6 } else none
    mesh_index_slice := fun _ => none }

/-- A world where entity 7 resolves to an indexed mesh (index count 6) with
vertex and index slices present. -/
def indexedWorld : RenderWorld :=
  { render_mesh_instances := fun m =>
      if m = 7 then some { mesh_asset_id := 1, translation := 0 } else none
    meshes := fun i =>
      if i = 1 then some { primitive_topology := 0, layout := 0, buffer_info := .indexed 0 6 }
      else none
    specialize_pipeline := fun _ _ => .ok 42
    rangefinder := fun t => t
    mesh_vertex_slice := fun i =>
      if i = 1 then some { buffer := 2, range_start := 4, range_end := 8 } else none
    mesh_index_slice := fun i =>
      if i = 1 then some { buffer := 3, range_start := 10, range_end := 16 } else none }

/-! ## Draw queueing theorems -/

/-- C4 counterexample: an entity whose upstream pipeline specialization fails
is not silently skipped — `queue_custom` calls `.unwrap()` on the
specialization result, so the queueing system panics. -/
theorem queue_specialize_failure_panics :
    queueEntity c4World 0 0 { entity := 3, main_entity := 7, visible := true } = .panic := by
  decide

/-- C4 amended: entities with no resolved mesh instance or no mesh asset are
silently skipped (no phase entry, no error), but an entity whose pipeline
specialization fails causes a panic (the `unwrap`), not a silent skip. -/
theorem queue_missing_data_behavior (w : RenderWorld) (vk dc : Nat) (e : QueueEntity) :
    (w.render_mesh_instances e.main_entity = none → queueEntity w vk dc e = .skip)
    ∧ (∀ mi, w.render_mesh_instances e.main_entity = some mi →
        w.meshes mi.mesh_asset_id = none → queueEntity w vk dc e = .skip)
    ∧ (∀ mi mesh, w.render_mesh_instances e.main_entity = some mi →
        w.meshes mi.mesh_asset_id = some mesh →
        w.specialize_pipeline (vk ||| mesh.primitive_topology) mesh.layout = .error () →
        queueEntity w vk dc e = .panic) := by
  refine ⟨?_, ?_, ?_⟩
  · intro h
    unfold queueEntity
    rw [h]
  · intro mi h1 h2
    unfold queueEntity
    rw [h1]
    dsimp only
    rw [h2]
  · intro mi mesh h1 h2 h3
    unfold queueEntity
    rw [h1]
    dsimp only
    rw [h2]
    dsimp only
    rw [h3]

/-- Witness for `queue_missing_data_behavior`: in `emptyWorld` the mesh
instance lookup fails and the entity is skipped. -/
theorem queue_missing_data_behavior_witness :
    queueEntity emptyWorld 0 0 { entity := 0, main_entity := 0, visible := true } = .skip :=
  (queue_missing_data_behavior emptyWorld 0 0
    { entity := 0, main_entity := 0, visible := true }).1 rfl

/-- C8 counterexample: an entity that is not visible to the view still
receives a phase entry — `queue_custom` queries only
`With<InstanceMaterialData>` and never consults visibility. -/
theorem invisible_entity_gets_phase_entry :
    queueEntity nonIndexedWorld 0 5 { entity := 3, main_entity := 7, visible := false } =
      .add { entity := (3, 7), pipeline := 42, draw_function := 5, distance := 11,
             batch_range := (0, 1), extra_index := none, indexed := true } := by
  decide

/-- C8 amended: draw queueing inserts a phase entry for every entity carrying
an `InstanceMaterialData` whose mesh instance and mesh asset resolve and
whose pipeline specializes, regardless of the entity's per-view visibility:
the queueing outcome is independent of the `visible` flag. -/
theorem queue_ignores_visibility (w : RenderWorld) (vk dc : Nat) (e : QueueEntity) (b : Bool) :
    queueEntity w vk dc e = queueEntity w vk dc { e with visible := b }
    ∧ (∀ mi mesh pipeline, w.render_mesh_instances e.main_entity = some mi →
        w.meshes mi.mesh_asset_id = some mesh →
        w.specialize_pipeline (vk ||| mesh.primitive_topology) mesh.layout = .ok pipeline →
        queueEntity w vk dc e =
          .add { entity := (e.entity, e.main_entity), pipeline := pipeline,
                 draw_function := dc, distance := w.rangefinder mi.translation,
                 batch_range := (0, 1), extra_index := none, indexed := true }) := by
  constructor
  · rfl
  · intro mi mesh pipeline h1 h2 h3
    unfold queueEntity
    rw [h1]
    dsimp only
    rw [h2]
    dsimp only
    rw [h3]

/-- Witness for `queue_ignores_visibility`: a visible entity in
`nonIndexedWorld` receives the same entry the invisible one does. -/
theorem queue_ignores_visibility_witness :
    queueEntity nonIndexedWorld 0 5 { entity := 3, main_entity := 7, visible := true } =
      .add { entity := (3, 7), pipeline := 42, draw_function := 5, distance := 11,
             batch_range := (0, 1), extra_index := none, indexed := true } :=
  (queue_ignores_visibility nonIndexedWorld 0 5
      { entity := 3, main_entity := 7, visible := true } false).2
    { mesh_asset_id := 1, translation := 11 }
    { primitive_topology := 0, layout := 0, buffer_info := .nonIndexed }
    42 rfl rfl rfl

/-- C10: every phase entry inserted by `queue_custom` has its `indexed` flag
hardcoded to `true` and its `batch_range` set to `0..1`, regardless of the
entity's mesh geometry — even though `DrawMeshInstanced::render` itself
distinguishes indexed from non-indexed meshes and has a non-indexed draw
path (second conjunct: that path issues a plain `draw`). -/
theorem phase_entry_indexed_hardcoded :
    (∀ w vk dc e entry, queueEntity w vk dc e = .add entry →
      entry.indexed = true ∧ entry.batch_range = (0, 1))
    ∧ (∀ w main ib mi mesh vbs,
        RenderWorld.render_mesh_instances w main = some mi →
        w.meshes mi.mesh_asset_id = some mesh →
        mesh.buffer_info = .nonIndexed →
        w.mesh_vertex_slice mi.mesh_asset_id = some vbs →
        (renderMeshInstanced w main (some ib)).2.filter isDraw =
          [.draw vbs.range_start vbs.range_end 0 (ib.length % U32)]) := by
  constructor
  · intro w vk dc e entry h
    unfold queueEntity at h
    cases h1 : w.render_mesh_instances e.main_entity with
    | none => rw [h1] at h; cases h
    | some mi =>
      rw [h1] at h
      dsimp only at h
      cases h2 : w.meshes mi.mesh_asset_id with
      | none => rw [h2] at h; cases h
      | some mesh =>
        rw [h2] at h
        dsimp only at h
        cases h3 : w.specialize_pipeline (vk ||| mesh.primitive_topology) mesh.layout with
        | error err => rw [h3] at h; cases h
        | ok pipeline =>
          rw [h3] at h
          dsimp only at h
          cases h
          exact ⟨rfl, rfl⟩
  · intro w main ib mi mesh vbs h1 h2 h3 h4
    unfold renderMeshInstanced
    rw [h1]
    dsimp only
    rw [h2]
    dsimp only
    rw [h4]
    dsimp only
    rw [h3]
    rfl

/-- The phase entry added for entity (3, 7) in `nonIndexedWorld`. -/
def nonIndexedEntry : PhaseEntry :=
  { entity := (3, 7), pipeline := 42, draw_function := 5, distance := 11,
    batch_range := (0, 1), extra_index := none, indexed := true }

/-- Witness for `phase_entry_indexed_hardcoded`: the concrete entry queued in
`nonIndexedWorld` has the hardcoded flags, and the render command's
non-indexed path does issue a plain draw there. -/
theorem phase_entry_indexed_hardcoded_witness :
    (nonIndexedEntry.indexed = true ∧ nonIndexedEntry.batch_range = (0, 1))
    ∧ (renderMeshInstanced nonIndexedWorld 7 (some { buffer := [], length := 3 })).2.filter isDraw =
        [.draw 0 6 0 (3 % U32)] :=
  ⟨phase_entry_indexed_hardcoded.1 nonIndexedWorld 0 5
      { entity := 3, main_entity := 7, visible := true } nonIndexedEntry (by decide),
   phase_entry_indexed_hardcoded.2 nonIndexedWorld 7 { buffer := [], length := 3 }
      { mesh_asset_id := 1, translation := 11 }
      { primitive_topology := 0, layout := 0, buffer_info := .nonIndexed }
      { buffer := 2, range_start := 0, range_end := 6 } rfl rfl rfl rfl⟩

/-! ## Render command theorems -/

/-- C5: each resolution step of `DrawMeshInstanced::render` — mesh-instance
record, GPU mesh geometry, prepared instance buffer, vertex-buffer slice,
and (for indexed meshes) index-buffer slice — is independently fallible, and
the absence of any one of them makes the command return `Skip` for that
single entity without issuing any draw call. -/
theorem render_failure_isolation (w : RenderWorld) (main : Nat) (ib : Option InstanceBuffer) :
    (w.render_mesh_instances main = none →
      renderMeshInstanced w main ib = (.skip, []))
    ∧ (∀ mi, w.render_mesh_instances main = some mi →
        w.meshes mi.mesh_asset_id = none →
        renderMeshInstanced w main ib = (.skip, []))
    ∧ (∀ mi mesh, w.render_mesh_instances main = some mi →
        w.meshes mi.mesh_asset_id = some mesh → ib = none →
        renderMeshInstanced w main ib = (.skip, []))
    ∧ (∀ mi mesh b, w.render_mesh_instances main = some mi →
        w.meshes mi.mesh_asset_id = some mesh → ib = some b →
        w.mesh_vertex_slice mi.mesh_asset_id = none →
        renderMeshInstanced w main ib = (.skip, []))
    ∧ (∀ mi mesh b vbs index_format count, w.render_mesh_instances main = some mi →
        w.meshes mi.mesh_asset_id = some mesh → ib = some b →
        w.mesh_vertex_slice mi.mesh_asset_id = some vbs →
        mesh.buffer_info = .indexed index_format count →
        w.mesh_index_slice mi.mesh_asset_id = none →
        (renderMeshInstanced w main ib).1 = .skip
        ∧ (renderMeshInstanced w main ib).2.filter isDraw = []) := by
  refine ⟨?_, ?_, ?_, ?_, ?_⟩
  · intro h
    unfold renderMeshInstanced
    rw [h]
  · intro mi h1 h2
    unfold renderMeshInstanced
    rw [h1]
    dsimp only
    rw [h2]
  · intro mi mesh h1 h2 h3
    subst h3
    unfold renderMeshInstanced
    rw [h1]
    dsimp only
    rw [h2]
  · intro mi mesh b h1 h2 h3 h4
    subst h3
    unfold renderMeshInstanced
    rw [h1]
    dsimp only
    rw [h2]
    dsimp only
    rw [h4]
  · intro mi mesh b vbs index_format count h1 h2 h3 h4 h5 h6
    subst h3
    unfold renderMeshInstanced
    rw [h1]
    dsimp only
    rw [h2]
    dsimp only
    rw [h4]
    dsimp only
    rw [h5]
    dsimp only
    rw [h6]
    exact ⟨rfl, rfl⟩

/-- Witness for `render_failure_isolation`: in `emptyWorld` the mesh-instance
lookup fails and the command skips without drawing. -/
theorem render_failure_isolation_witness :
    renderMeshInstanced emptyWorld 0 none = (.skip, []) :=
  (render_failure_isolation emptyWorld 0 none).1 rfl

/-- C9: for an entity whose GPU mesh is indexed with index count `count` and
whose mesh-instance record, instance buffer, vertex-buffer slice and
index-buffer slice all resolve (with values in machine-integer range), the
render command succeeds and issues exactly one indexed draw call: index range
`range_start .. range_start + count` (length `count`, starting at the index
slice's allocator offset), base vertex equal to the vertex slice's start, and
instance range `0 .. length` with `length` the prepared buffer's recorded
element count. -/
theorem indexed_draw_exact (w : RenderWorld) (main : Nat) (ib : InstanceBuffer)
    (mi : MeshQueueData) (mesh : RenderMesh) (vbs ibs : BufferSlice)
    (index_format count : Nat)
    (h1 : w.render_mesh_instances main = some mi)
    (h2 : w.meshes mi.mesh_asset_id = some mesh)
    (h3 : mesh.buffer_info = .indexed index_format count)
    (h4 : w.mesh_vertex_slice mi.mesh_asset_id = some vbs)
    (h5 : w.mesh_index_slice mi.mesh_asset_id = some ibs)
    (hcnt : ibs.range_start + count < 2 ^ 32)
    (hbase : vbs.range_start < 2 ^ 31)
    (hlen : ib.length < 2 ^ 32) :
    (renderMeshInstanced w main (some ib)).1 = .success
    ∧ (renderMeshInstanced w main (some ib)).2.filter isDraw =
        [.drawIndexed ibs.range_start (ibs.range_start + count) (vbs.range_start : Int)
          0 ib.length] := by
  have hmod1 : (ibs.range_start + count) % U32 = ibs.range_start + count := by
    unfold U32
    omega
  have hmod2 : ib.length % U32 = ib.length := by
    unfold U32
    omega
  have hbase32 : i32OfU32 vbs.range_start = (vbs.range_start : Int) := by
    unfold i32OfU32 U32
    rw [Nat.mod_eq_of_lt (by omega), if_pos (by omega)]
  unfold renderMeshInstanced
  rw [h1]
  dsimp only
  rw [h2]
  dsimp only
  rw [h4]
  dsimp only
  rw [h3]
  dsimp only
  rw [h5]
  dsimp only
  rw [hmod1, hmod2, hbase32]
  exact ⟨rfl, rfl⟩

/-- Witness for `indexed_draw_exact` at the concrete `indexedWorld`. -/
theorem indexed_draw_exact_witness :
    (renderMeshInstanced indexedWorld 7 (some { buffer := [], length := 6 })).1 = .success
    ∧ (renderMeshInstanced indexedWorld 7 (some { buffer := [], length := 6 })).2.filter isDraw =
        [.drawIndexed 10 (10 + 6) ((4 : Nat) : Int) 0 6] :=
  indexed_draw_exact indexedWorld 7 { buffer := [], length := 6 }
    { mesh_asset_id := 1, translation := 0 }
    { primitive_topology := 0, layout := 0, buffer_info := .indexed 0 6 }
    { buffer := 2, range_start := 4, range_end := 8 }
    { buffer := 3, range_start := 10, range_end := 16 } 0 6
    rfl rfl rfl rfl rfl (by norm_num) (by norm_num) (by norm_num)

/-- C3 counterexample: for an entity with an empty `InstanceCollection`,
buffer preparation records element count 0, but the render command does NOT
perform "no draw call": it still issues a draw call, with instance range
`0..0` (a zero-instance draw is issued, there is no length guard). -/
theorem zero_instances_draw_issued :
    (prepare_instance_buffer []).length = 0
    ∧ (renderMeshInstanced indexedWorld 7 (some (prepare_instance_buffer []))).2.filter isDraw =
        [.drawIndexed 10 16 4 0 0] := by
  decide

/-- C3 amended: an `InstanceCollection` of length 0 yields a prepared buffer
with `length = 0`, and whenever the render command's resolutions succeed it
still issues precisely one draw call, whose instance range is `0..0` (it
draws zero instances instead of being suppressed). -/
theorem zero_length_collection (l : List InstanceData) (hl : l.length = 0)
    (w : RenderWorld) (main : Nat) :
    (prepare_instance_buffer l).length = 0
    ∧ (∀ mi mesh vbs ibs index_format count,
        w.render_mesh_instances main = some mi →
        w.meshes mi.mesh_asset_id = some mesh →
        mesh.buffer_info = .indexed index_format count →
        w.mesh_vertex_slice mi.mesh_asset_id = some vbs →
        w.mesh_index_slice mi.mesh_asset_id = some ibs →
        (renderMeshInstanced w main (some (prepare_instance_buffer l))).2.filter isDraw =
          [.drawIndexed ibs.range_start ((ibs.range_start + count) % U32)
            (i32OfU32 vbs.range_start) 0 0])
    ∧ (∀ mi mesh vbs,
        w.render_mesh_instances main = some mi →
        w.meshes mi.mesh_asset_id = some mesh →
        mesh.buffer_info = .nonIndexed →
        w.mesh_vertex_slice mi.mesh_asset_id = some vbs →
        (renderMeshInstanced w main (some (prepare_instance_buffer l))).2.filter isDraw =
          [.draw vbs.range_start vbs.range_end 0 0]) := by
  have hlen : (prepare_instance_buffer l).length = 0 := hl
  have hmod : (prepare_instance_buffer l).length % U32 = 0 := by
    rw [hlen]
    rfl
  refine ⟨hlen, ?_, ?_⟩
  · intro mi mesh vbs ibs index_format count h1 h2 h3 h4 h5
    unfold renderMeshInstanced
    rw [h1]
    dsimp only
    rw [h2]
    dsimp only
    rw [h4]
    dsimp only
    rw [h3]
    dsimp only
    rw [h5]
    dsimp only
    rw [hmod]
    rfl
  · intro mi mesh vbs h1 h2 h3 h4
    unfold renderMeshInstanced
    rw [h1]
    dsimp only
    rw [h2]
    dsimp only
    rw [h4]
    dsimp only
    rw [h3]
    dsimp only
    rw [hmod]
    rfl

/-- Witness for `zero_length_collection` at the concrete `indexedWorld`. -/
theorem zero_length_collection_witness :
    (prepare_instance_buffer []).length = 0
    ∧ (renderMeshInstanced indexedWorld 7 (some (prepare_instance_buffer []))).2.filter isDraw =
        [.drawIndexed 10 ((10 + 6) % U32) (i32OfU32 4) 0 0] :=
  ⟨(zero_length_collection [] rfl indexedWorld 7).1,
   (zero_length_collection [] rfl indexedWorld 7).2.1
     { mesh_asset_id := 1, translation := 0 }
     { primitive_topology := 0, layout := 0, buffer_info := .indexed 0 6 }
     { buffer := 2, range_start := 4, range_end := 8 }
     { buffer := 3, range_start := 10, range_end := 16 } 0 6
     rfl rfl rfl rfl rfl⟩
